import Mathlib

/-!
Verification development for the `generate_feed.py` scraper pipeline.

The Python program scrapes a paginated product catalog (CSA-IoT certified
products), enriches each listing tile from its detail page, and assembles
an RSS 2.0 feed. We give a shallow embedding: the parsed-markup queries
that BeautifulSoup performs (`find_all("p")` texts, label-anchored
`find(string=...).find_next().text` lookups, `find_all("img")` sources,
per-tile heading / href / img extraction) are modelled as the data they
yield, and every piece of program logic operating on that data (the
description accumulator, strptime/strftime date handling, exclusion and
link normalization, the caching of errors, the page loop with its record
cap, and the per-item XML element construction) is translated directly
from the source.
-/

namespace GenerateFeed

/-- Python truthiness of an optional string (`None` and `""` are falsy). -/
def optTruthy : Option String → Bool
  | none => false
  | some s => s != ""

/-- Occurrence of a pattern anywhere in a character list. -/
def containsAux (pat : List Char) : List Char → Bool
  | [] => pat.isEmpty
  | c :: rest => List.isPrefixOf pat (c :: rest) || containsAux pat rest

/-- Python `pat in s` substring test. -/
def containsSub (s pat : String) : Bool :=
  containsAux pat.data s.data

/-- A Python whitespace character (the set `str.strip()` removes). -/
def isSpaceChar (c : Char) : Bool :=
  c = ' ' || c = '\t' || c = '\n' || c = '\r' || c = '\x0b' || c = '\x0c'

/-- Python `s.strip()`. -/
def strTrim (s : String) : String :=
  String.mk (((s.data.dropWhile isSpaceChar).reverse.dropWhile isSpaceChar).reverse)

/-- Python `s.startswith(p)`. -/
def strStartsWith (s p : String) : Bool :=
  List.isPrefixOf p.data s.data

/-- `BASE_URL` constant from the source. -/
def BASE_URL : String := "https://csa-iot.org/csa-iot_products/"

/-- `QUERY_PARAMS` constant from the source. -/
def QUERY_PARAMS : String :=
  "p_keywords&p_type%5B0%5D=17&p_type%5B1%5D=14&p_type%5B2%5D=1053&p_program_type%5B0%5D=1049&p_certificate&p_family&p_firmware_ver"

/-!
## Description accumulation (fetch_certification_details, lines 34-47)

The loop over `find_all("p")` texts: `started` flips to true on a block
starting with `"By "`; while started, a block containing
`"View All Products"` breaks the loop, any other block is appended with a
trailing space.
-/

/-- The paragraph loop of `fetch_certification_details`, state passed
explicitly (`started` flag and accumulated `acc`). -/
def accumGo (started : Bool) (acc : String) : List String → String
  | [] => acc
  | t :: ts =>
    let started' := if strStartsWith t "By " then true else started
    if started' then
      if containsSub t "View All Products" then acc
      else accumGo started' (acc ++ t ++ " ") ts
    else accumGo started' acc ts

/-- Description accumulated over the detail page's paragraph texts. -/
def accumulateDescription (ps : List String) : String :=
  accumGo false "" ps

/-- The `started` flag after scanning a list of paragraph texts (pure
fold of the flag update, no break). -/
def startedAfter (started : Bool) : List String → Bool
  | [] => started
  | t :: ts => startedAfter (if strStartsWith t "By " then true else started) ts

/-!
## Date parsing and formatting (lines 55-58)

`datetime.strptime(s, "%m/%d/%Y")` followed by
`strftime('%a, %d %b %Y %H:%M:%S GMT')` at midnight UTC. CPython's
strptime compiles the format to the regex
`(1[0-2]|0[1-9]|[1-9]) / (3[01]|[12]d|0[1-9]|[1-9]) / (dddd)` (full
match required) and then validates the day against the month length.
-/

/-- Numeric value of a digit character. -/
def digitVal (c : Char) : Nat := c.toNat - 48

/-- Match CPython's `%m` regex alternation `1[0-2]|0[1-9]|[1-9]` at the
head of the character list, returning the month and the rest. -/
def matchMonth : List Char → Option (Nat × List Char)
  | [] => none
  | c :: cs =>
    if c = '1' then
      match cs with
      | c2 :: cs2 =>
        if '0' ≤ c2 ∧ c2 ≤ '2' then some (10 + digitVal c2, cs2)
        else some (1, cs)
      | [] => some (1, [])
    else if c = '0' then
      match cs with
      | c2 :: cs2 =>
        if '1' ≤ c2 ∧ c2 ≤ '9' then some (digitVal c2, cs2)
        else none
      | [] => none
    else if '2' ≤ c ∧ c ≤ '9' then some (digitVal c, cs)
    else none

/-- Match CPython's `%d` regex alternation `3[01]|[12]\d|0[1-9]|[1-9]`. -/
def matchDay : List Char → Option (Nat × List Char)
  | [] => none
  | c :: cs =>
    if c = '3' then
      match cs with
      | c2 :: cs2 =>
        if c2 = '0' ∨ c2 = '1' then some (30 + digitVal c2, cs2)
        else some (3, cs)
      | [] => some (3, [])
    else if c = '1' ∨ c = '2' then
      match cs with
      | c2 :: cs2 =>
        if c2.isDigit then some (10 * digitVal c + digitVal c2, cs2)
        else some (digitVal c, cs)
      | [] => some (digitVal c, [])
    else if c = '0' then
      match cs with
      | c2 :: cs2 =>
        if '1' ≤ c2 ∧ c2 ≤ '9' then some (digitVal c2, cs2)
        else none
      | [] => none
    else if '4' ≤ c ∧ c ≤ '9' then some (digitVal c, cs)
    else none

/-- Match CPython's `%Y` regex: exactly four digits. -/
def matchYear : List Char → Option (Nat × List Char)
  | c1 :: c2 :: c3 :: c4 :: rest =>
    if c1.isDigit ∧ c2.isDigit ∧ c3.isDigit ∧ c4.isDigit then
      some (1000 * digitVal c1 + 100 * digitVal c2 + 10 * digitVal c3 + digitVal c4, rest)
    else none
  | _ => none

/-- Gregorian leap-year test, as `datetime` uses. -/
def isLeapYear (y : Nat) : Bool :=
  y % 4 == 0 && (y % 100 != 0 || y % 400 == 0)

/-- Length of a month in the proleptic Gregorian calendar. -/
def daysInMonth (y m : Nat) : Nat :=
  if m = 2 then (if isLeapYear y then 29 else 28)
  else if m = 4 ∨ m = 6 ∨ m = 9 ∨ m = 11 then 30
  else 31

/-- `datetime.strptime(s, "%m/%d/%Y")`: the regex must consume the whole
string and the resulting triple must be a valid date (`datetime` requires
1 ≤ year and day within the month). Returns `(month, day, year)` or
`none` for a `ValueError`. -/
def parseMDY (s : String) : Option (Nat × Nat × Nat) :=
  match matchMonth s.data with
  | none => none
  | some (m, r1) =>
    match r1 with
    | '/' :: r2 =>
      match matchDay r2 with
      | none => none
      | some (d, r3) =>
        match r3 with
        | '/' :: r4 =>
          match matchYear r4 with
          | some (y, []) =>
            if 1 ≤ y ∧ d ≤ daysInMonth y m then some (m, d, y) else none
          | _ => none
        | _ => none
    | _ => none

/-- Sakamoto's weekday table. -/
def sakamotoTable : List Nat := [0, 3, 2, 5, 0, 3, 5, 1, 4, 6, 2, 4]

/-- Weekday of a Gregorian date, 0 = Sunday ... 6 = Saturday. -/
def weekdayIdx (y m d : Nat) : Nat :=
  let y' := if m < 3 then y - 1 else y
  (y' + y' / 4 + y' / 400 + sakamotoTable.getD (m - 1) 0 + d - y' / 100) % 7

/-- `%a` weekday abbreviations in the C locale, indexed from Sunday. -/
def weekdayNames : List String := ["Sun", "Mon", "Tue", "Wed", "Thu", "Fri", "Sat"]

/-- `%b` month abbreviations in the C locale. -/
def monthNames : List String :=
  ["Jan", "Feb", "Mar", "Apr", "May", "Jun", "Jul", "Aug", "Sep", "Oct", "Nov", "Dec"]

/-- Zero-pad a number to two digits, as `%d` does. -/
def pad2 (n : Nat) : String :=
  if n < 10 then "0" ++ toString n else toString n

/-- `strftime('%a, %d %b %Y %H:%M:%S GMT')` applied to the parsed date at
midnight UTC. -/
def formatCertDate : Nat × Nat × Nat → String
  | (m, d, y) =>
    weekdayNames.getD (weekdayIdx y m d) "" ++ ", " ++ pad2 d ++ " " ++
      monthNames.getD (m - 1) "" ++ " " ++ toString y ++ " 00:00:00 GMT"

/-!
## Detail enrichment (fetch_certification_details, lines 27-115)
-/

/-- The data the enricher's BeautifulSoup queries yield on one detail
page: the stripped texts of all `p` elements in order, the
`find_next().text` value for each label when `find(string=label)`
succeeds, and the `src` of every `img` in order. -/
structure DetailPage where
  paragraphs : List String
  certDate : Option String
  certId : Option String
  firmware : Option String
  hardware : Option String
  transport : Option String
  specVersion : Option String
  images : List String
deriving Repr, DecidableEq

/-- The dictionary returned by `fetch_certification_details`. -/
structure Details where
  full_description : String
  cert_date : String
  certificate_id : String
  firmware_version : String
  hardware_version : String
  transport_interface : String
  specification_version : String
  images : List String
deriving Repr, DecidableEq

/-- The all-sentinel dictionary of the `except` branch (lines 106-115). -/
def defaultDetails : Details :=
  { full_description := "Error fetching description"
    cert_date := "N/A"
    certificate_id := "N/A"
    firmware_version := "N/A"
    hardware_version := "N/A"
    transport_interface := "N/A"
    specification_version := "N/A"
    images := [] }

/-- Lines 50-58: `"N/A"` when the label is absent or the stripped value
is empty; otherwise strptime (which may raise, modelled as `.error`)
followed by strftime. -/
def certDateField : Option String → Except String String
  | none => Except.ok "N/A"
  | some raw =>
    let s := strTrim raw
    if s = "" then Except.ok "N/A"
    else
      match parseMDY s with
      | none => Except.error "ValueError"
      | some mdy => Except.ok (formatCertDate mdy)

/-- Label-anchored scalar fields (lines 61-86): `"N/A"` when the label is
absent, else the stripped next text. -/
def labelField : Option String → String
  | none => "N/A"
  | some raw => strTrim raw

/-- The body of the `try` block of `fetch_certification_details`:
extraction over one fetched detail page, failing exactly where the Python
raises (the malformed-date `ValueError` of `strptime`). -/
def enrichCore (pg : DetailPage) : Except String Details :=
  let description := accumulateDescription pg.paragraphs
  match certDateField pg.certDate with
  | Except.error e => Except.error e
  | Except.ok cd =>
    Except.ok
      { full_description := strTrim description
        cert_date := cd
        certificate_id := labelField pg.certId
        firmware_version := labelField pg.firmware
        hardware_version := labelField pg.hardware
        transport_interface := labelField pg.transport
        specification_version := labelField pg.specVersion
        images := pg.images }

/-- `fetch_certification_details`: its input is the result of fetching
the detail URL (`Except.error` for a transport failure); any failure —
of the fetch or inside extraction — is caught and converted to the
all-sentinel dictionary (lines 104-115). -/
def fetch_certification_details (inp : Except String DetailPage) : Details :=
  match inp with
  | Except.error _ => defaultDetails
  | Except.ok pg =>
    match enrichCore pg with
    | Except.error _ => defaultDetails
    | Except.ok d => d

/-- True exactly when some internal step of the enrichment failed: the
transport fetch, or the extraction body. -/
def enrichFailed (inp : Except String DetailPage) : Bool :=
  match inp with
  | Except.error _ => true
  | Except.ok pg =>
    match enrichCore pg with
    | Except.error _ => true
    | Except.ok _ => false

/-!
## Listing parsing (parse_products, lines 117-160)
-/

deriving instance DecidableEq for Except

/-- The data the listing-page queries yield for one `article` tile: the
stripped text of the first h2/h3/h4 when present, the tile's whole
stripped text, the first anchor's href, the first image's src, and the
result of fetching this tile's detail URL (what
`fetch_certification_details(url)` would consume). -/
structure Tile where
  heading : Option String
  allText : String
  href : Option String
  imgSrc : Option String
  detail : Except String DetailPage
deriving Repr, DecidableEq

/-- Line 125: the tile title — first sub-heading's text, else the whole
tile text. -/
def tileTitle (t : Tile) : String :=
  match t.heading with
  | some h => h
  | none => t.allText

/-- Lines 127-129: the candidate link, made absolute by prefixing the
site origin when it is truthy (non-empty) and does not start with
`"http"` (`if url and not url.startswith("http")`); an empty href is
left as the empty string. -/
def tileUrl (t : Tile) : Option String :=
  match t.href with
  | none => none
  | some u => some (if u != "" && !strStartsWith u "http" then "https://csa-iot.org" ++ u else u)

/-- One feed-item dictionary appended by `parse_products`. -/
structure Product where
  title : String
  link : String
  image : Option String
  description : String
  pubDate : String
  certificate_id : String
deriving Repr, DecidableEq

/-- Lines 144-150: the composed extended description. -/
def extendedDescription (details : Details) : String :=
  details.full_description ++ "<br><br>" ++
    "Firmware Version: " ++ details.firmware_version ++ "<br>" ++
    "Hardware Version: " ++ details.hardware_version ++ "<br>" ++
    "Transport Interface: " ++ details.transport_interface ++ "<br>" ++
    "Specification Version: " ++ details.specification_version ++ "<br>"

/-- The body of the tile loop of `parse_products` (lines 123-159): skip
tiles whose title contains `"End Products"`; enrich and append only when
the (truthy) url contains `"csa_product"`; fall back to the first detail
image when the tile has no truthy image. -/
def parseTile (t : Tile) : Option Product :=
  let title := tileTitle t
  let image_url := t.imgSrc
  if containsSub title "End Products" then none
  else
    match tileUrl t with
    | none => none
    | some u =>
      if u != "" && containsSub u "csa_product" then
        let details := fetch_certification_details t.detail
        let image_url :=
          if !optTruthy image_url && !details.images.isEmpty then
            details.images.head?
          else image_url
        some
          { title := title
            link := u
            image := image_url
            description := extendedDescription details
            pubDate := details.cert_date
            certificate_id := details.certificate_id }
      else none

/-- `parse_products` over the tiles found on one listing page. -/
def parse_products (tiles : List Tile) : List Product :=
  tiles.filterMap parseTile

/-- The guard under which `parse_products` calls
`fetch_certification_details` for a tile (lines 135 and 139). -/
def tileEnriched (t : Tile) : Bool :=
  !containsSub (tileTitle t) "End Products" &&
    (match tileUrl t with
     | none => false
     | some u => u != "" && containsSub u "csa_product")

/-- Number of detail-enrichment calls made while parsing one page. -/
def pageEnrichCount (tiles : List Tile) : Nat :=
  (tiles.filter tileEnriched).length

/-!
## Feed assembly (build_rss, lines 162-194)
-/

/-- One XML element: tag, attributes, text. -/
structure XElem where
  tag : String
  attrs : List (String × String)
  text : Option String
deriving Repr, DecidableEq

/-- The namespaced tag ElementTree gives the `media:content` element. -/
def mediaTag : String := "\x7bhttp://search.yahoo.com/mrss/\x7dcontent"

/-- The `media:content` element built for an image url (lines 186-192). -/
def mediaContentElem (u : String) : XElem :=
  { tag := mediaTag
    attrs := [("url", u), ("medium", "image"), ("type", "image/jpeg"),
              ("width", "150"), ("height", "150")]
    text := none }

/-- The children of one `item` element (lines 176-192): title, link,
description, pubDate, guid — unconditionally — then a single
`media:content` element when the image is truthy. -/
def buildItem (prod : Product) : List XElem :=
  [{ tag := "title", attrs := [], text := some prod.title },
   { tag := "link", attrs := [], text := some prod.link },
   { tag := "description", attrs := [], text := some prod.description },
   { tag := "pubDate", attrs := [], text := some prod.pubDate },
   { tag := "guid", attrs := [], text := some prod.certificate_id }] ++
    (if optTruthy prod.image then
      [mediaContentElem (prod.image.getD "")]
    else [])

/-- The elements of `buildItem` carrying a given tag. -/
def filterTag (tag : String) (elems : List XElem) : List XElem :=
  elems.filter (fun e => e.tag == tag)

/-- How many elements of an item carry a given tag. -/
def countTag (tag : String) (elems : List XElem) : Nat :=
  (filterTag tag elems).length

/-- The `channel` of the assembled feed: fixed metadata, a last-build
timestamp taken from the wall clock (passed in as `now`), and one item
per product. -/
structure RssChannel where
  chTitle : String
  chLink : String
  chDescription : String
  chLastBuildDate : String
  items : List (List XElem)
deriving Repr, DecidableEq

/-- `build_rss` (lines 162-194). -/
def build_rss (now : String) (products : List Product) : RssChannel :=
  { chTitle := "CSA-IoT Certified Products Feed"
    chLink := BASE_URL ++ "?" ++ QUERY_PARAMS
    chDescription := "An RSS feed of CSA-IoT certified products with images scraped from multiple pages."
    chLastBuildDate := now
    items := products.map buildItem }

/-!
## Aggregation (main, lines 196-217)
-/

/-- The result of fetching and reading one listing page: a transport or
parse failure, or the page's tiles. -/
abbrev PageResult := Except String (List Tile)

/-- The page loop of `main` (lines 198-208), also counting the
detail-enrichment calls performed: extend the accumulator with the
page's products; once it reaches 36, truncate to 36 and break; a failing
page is logged and skipped. -/
def mainLoop (acc : List Product) (cnt : Nat) : List PageResult → List Product × Nat
  | [] => (acc, cnt)
  | pg :: rest =>
    match pg with
    | Except.error _ => mainLoop acc cnt rest
    | Except.ok tiles =>
      let acc' := acc ++ parse_products tiles
      let cnt' := cnt + pageEnrichCount tiles
      if 36 ≤ acc'.length then (acc'.take 36, cnt')
      else mainLoop acc' cnt' rest

/-- The accumulated product list of `main` over the requested pages. -/
def mainAggregate (pages : List PageResult) : List Product :=
  (mainLoop [] 0 pages).1

/-- Total number of detail-enrichment calls a run performs. -/
def enrichCount (pages : List PageResult) : Nat :=
  (mainLoop [] 0 pages).2

/-- `main` after the loop (lines 210-216): with no products, print the
no-data diagnostic and return without building a feed (`none`);
otherwise assemble the feed. -/
def main (now : String) (pages : List PageResult) : Option RssChannel :=
  let all_products := mainAggregate pages
  if all_products.isEmpty then none
  else some (build_rss now all_products)

/-!
## Spec-side predicates (used only to state claims about the spec's
wording, never inside the embedding)
-/

/-- A character allowed after the first in a URI scheme. -/
def schemeChar (c : Char) : Bool :=
  c.isAlphanum || c = '+' || c = '-' || c = '.'

/-- The characters before the first colon, when a colon exists. -/
def upToColon : List Char → Option (List Char)
  | [] => none
  | c :: cs => if c = ':' then some [] else (upToColon cs).map (c :: ·)

/-- Whether a string starts with a URL scheme (RFC 3986: a letter, then
letters, digits, `+`, `-` or `.`, then a colon). -/
def hasUrlScheme (s : String) : Bool :=
  match upToColon s.data with
  | none => false
  | some [] => false
  | some (c :: cs) => c.isAlpha && cs.all schemeChar

/-- The spec's "absolute URL": an http or https URL. -/
def isAbsoluteUrl (s : String) : Bool :=
  strStartsWith s "http://" || strStartsWith s "https://"

/-!
## Concrete inputs used by witnesses and counterexamples
-/

/-- A detail page whose `Certified Date` value does not parse as
`MM/DD/YYYY`. -/
def pageC1bad : DetailPage :=
  { paragraphs := [], certDate := some "January 15, 2024", certId := none,
    firmware := none, hardware := none, transport := none,
    specVersion := none, images := [] }

/-- A detail page whose `Certified Date` value is `01/15/2024`. -/
def pageC5 : DetailPage :=
  { paragraphs := ["By Acme", "A hub."], certDate := some "01/15/2024",
    certId := some "CSA1234", firmware := some "1.0", hardware := some "2",
    transport := some "Thread", specVersion := some "1.2", images := [] }

/-- A qualifying tile (detail link matches the product pattern); its
detail fetch fails with a transport error. -/
def tileC2 : Tile :=
  { heading := some "Acme Hub", allText := "Acme Hub",
    href := some "/csa_product/acme/", imgSrc := none,
    detail := Except.error "net" }

/-- A listing page yielding 20 raw non-excluded tiles. -/
def pageC2 : List Tile := List.replicate 20 tileC2

/-- Two such pages: enough to reach the 36-record cap. -/
def pagesC2two : List PageResult := [Except.ok pageC2, Except.ok pageC2]

/-- Three such pages, as in the spec's example. -/
def pagesC2three : List PageResult := pagesC2two ++ [Except.ok pageC2]

/-- A tile whose title contains the excluded-category substring. -/
def tileC3 : Tile :=
  { heading := some "Matter End Products", allText := "Matter End Products",
    href := some "/csa_product/bundle/", imgSrc := none,
    detail := Except.error "net" }

/-- A tile with no anchor link at all. -/
def tileC6 : Tile :=
  { heading := some "Acme Sensor", allText := "Acme Sensor",
    href := none, imgSrc := some "/img/sensor.jpg",
    detail := Except.error "net" }

/-- A detail page on which no `Certificate ID` label was found. -/
def pageC7 : DetailPage :=
  { paragraphs := ["By Acme", "A plug."], certDate := some "01/15/2024",
    certId := none, firmware := none, hardware := none, transport := none,
    specVersion := none, images := [] }

/-- A tile whose detail page lacks a certificate id. -/
def tileC7 : Tile :=
  { heading := some "Acme Plug", allText := "Acme Plug",
    href := some "/csa_product/plug/", imgSrc := none,
    detail := Except.ok pageC7 }

/-- Fallback record used only to destructure singleton parses. -/
def dummyProd : Product :=
  { title := "", link := "", image := none, description := "",
    pubDate := "", certificate_id := "" }

/-- The record `parse_products` yields for `tileC7`. -/
def prodC7 : Product := (parse_products [tileC7]).headD dummyProd

/-- A detail page carrying a two-image gallery. -/
def pageC8 : DetailPage :=
  { paragraphs := ["By Acme", "A cam."], certDate := some "01/15/2024",
    certId := some "CSA99", firmware := none, hardware := none,
    transport := none, specVersion := none,
    images := ["/img/g1.jpg", "/img/g2.jpg"] }

/-- A tile with a primary image whose detail page adds two gallery
images: three images in all. -/
def tileC8 : Tile :=
  { heading := some "Acme Cam", allText := "Acme Cam",
    href := some "/csa_product/cam/", imgSrc := some "/img/main.jpg",
    detail := Except.ok pageC8 }

/-- The record `parse_products` yields for `tileC8`. -/
def prodC8 : Product := (parse_products [tileC8]).headD dummyProd

/-- A tile whose href starts with the literal `"http"` yet carries no
URL scheme (no colon at all). -/
def tileC9 : Tile :=
  { heading := some "Gadget", allText := "Gadget",
    href := some "httpx/csa_product", imgSrc := none,
    detail := Except.error "net" }

/-- The record `parse_products` yields for `tileC9`. -/
def prodC9 : Product := (parse_products [tileC9]).headD dummyProd

/-- An ordinary tile with a relative href, for the amended-claim
witness. -/
def tileC9w : Tile :=
  { heading := some "Acme Lock", allText := "Acme Lock",
    href := some "/csa_product/lock/", imgSrc := none,
    detail := Except.error "net" }

/-- A run in which the only page fails to fetch, so aggregation is
empty. -/
def pagesC10 : List PageResult := [Except.error "boom"]

/-!
## Helper lemmas
-/

/-- Inversion for a successful `parseTile`. -/
theorem parseTile_some_inv {t : Tile} {p : Product} (h : parseTile t = some p) :
    containsSub (tileTitle t) "End Products" = false ∧ p.title = tileTitle t ∧
    ∃ u, tileUrl t = some u ∧ (u != "") = true ∧
      containsSub u "csa_product" = true ∧ p.link = u := by
  simp only [parseTile] at h
  cases hcs : containsSub (tileTitle t) "End Products" with
  | true => rw [hcs] at h; simp at h
  | false =>
    rw [hcs] at h
    simp only [Bool.false_eq_true, if_false] at h
    cases hurl : tileUrl t with
    | none => rw [hurl] at h; simp at h
    | some u =>
      rw [hurl] at h
      dsimp only at h
      cases hg : (u != "" && containsSub u "csa_product") with
      | false => rw [hg] at h; simp at h
      | true =>
        rw [hg] at h
        simp only [if_true] at h
        have hq := (Bool.and_eq_true _ _).mp hg
        refine ⟨rfl, ?_, u, rfl, hq.1, hq.2, ?_⟩ <;>
          · cases h; rfl

/-- Every non-empty `tileUrl` result starts with the literal `"http"`
(an empty href passes through as the empty string, which the appending
guard rejects anyway). -/
theorem tileUrl_startsWith_http {t : Tile} {u : String} (h : tileUrl t = some u)
    (hne : (u != "") = true) :
    strStartsWith u "http" = true := by
  unfold tileUrl at h
  cases hh : t.href with
  | none => rw [hh] at h; simp at h
  | some u0 =>
    rw [hh] at h
    simp only [Option.some.injEq] at h
    cases hs : strStartsWith u0 "http" with
    | true =>
      rw [hs] at h
      simp only [Bool.not_true, Bool.and_false, Bool.false_eq_true, if_false] at h
      rw [← h]
      exact hs
    | false =>
      rw [hs] at h
      simp only [Bool.not_false, Bool.and_true] at h
      cases hne0 : (u0 != "") with
      | true =>
        rw [hne0] at h
        simp only [if_true] at h
        rw [← h]
        rfl
      | false =>
        rw [hne0] at h
        simp only [Bool.false_eq_true, if_false] at h
        rw [← h] at hne
        rw [hne0] at hne
        exact absurd hne (by simp)

/-- The page loop never lets the accumulator exceed 36 records. -/
theorem mainLoop_length_le (pages : List PageResult) :
    ∀ (acc : List Product) (cnt : Nat), acc.length ≤ 36 →
      ((mainLoop acc cnt pages).1).length ≤ 36 := by
  induction pages with
  | nil => intro acc cnt h; simpa [mainLoop] using h
  | cons pg rest ih =>
    intro acc cnt h
    cases pg with
    | error e => simpa [mainLoop] using ih acc cnt h
    | ok tiles =>
      by_cases h36 : 36 ≤ acc.length + (parse_products tiles).length
      · simp [mainLoop, h36, List.length_take]
      · simp only [mainLoop, List.length_append, h36, if_false]
        exact ih _ _ (by rw [List.length_append]; omega)

/-- Once the loop has broken at the cap, later pages change nothing. -/
theorem mainLoop_append_of_cap (pre : List PageResult) :
    ∀ (acc : List Product) (cnt : Nat) (post : List PageResult),
      acc.length < 36 → ((mainLoop acc cnt pre).1).length = 36 →
      mainLoop acc cnt (pre ++ post) = mainLoop acc cnt pre := by
  induction pre with
  | nil =>
    intro acc cnt post hlt hcap
    simp [mainLoop] at hcap
    omega
  | cons pg rest ih =>
    intro acc cnt post hlt hcap
    cases pg with
    | error e =>
      simp only [List.cons_append, mainLoop] at hcap ⊢
      exact ih acc cnt post hlt hcap
    | ok tiles =>
      simp only [List.cons_append, mainLoop, List.length_append] at hcap ⊢
      by_cases h36 : 36 ≤ acc.length + (parse_products tiles).length
      · simp [h36] at hcap ⊢
      · simp only [h36, if_false] at hcap ⊢
        exact ih _ _ post (by rw [List.length_append]; omega) hcap

/-- Once the marker block is reached in the accumulating state, neither
it nor anything after it contributes: the accumulation over
`pre ++ b :: suf` equals the accumulation over `pre` alone. -/
theorem accumGo_marker {b : String} (hmark : containsSub b "View All Products" = true) :
    ∀ (pre : List String) (started : Bool) (acc : String) (suf : List String),
      startedAfter started pre = true →
      accumGo started acc (pre ++ b :: suf) = accumGo started acc pre := by
  intro pre
  induction pre with
  | nil =>
    intro started acc suf h
    simp only [startedAfter] at h
    subst h
    simp [accumGo, hmark]
  | cons t ts ih =>
    intro started acc suf h
    rw [startedAfter] at h
    simp only [List.cons_append, accumGo]
    cases hs : strStartsWith t "By " with
    | true =>
      rw [hs] at h
      simp only [hs, if_true] at h ⊢
      cases hm : containsSub t "View All Products" with
      | true => simp [hm]
      | false =>
        simp only [hm, Bool.false_eq_true, if_false]
        exact ih true _ suf h
    | false =>
      rw [hs] at h
      simp only [hs, Bool.false_eq_true, if_false] at h ⊢
      cases started with
      | true =>
        cases hm : containsSub t "View All Products" with
        | true => simp [hm]
        | false =>
          simp only [hm, Bool.false_eq_true, if_false, if_true]
          exact ih true _ suf h
      | false =>
        simp only [Bool.false_eq_true, if_false]
        exact ih false acc suf h

/-!
## Claims
-/

/-- C1: The detail enricher never raises: whenever any internal step of
the enrichment fails — the transport fetch of the detail page, or the
extraction body (e.g. a malformed certification-date string raising in
`strptime`) — `fetch_certification_details` returns the record whose
fields are all sentinel/empty values, with description
"Error fetching description", "N/A" scalars and an empty image list.
The failure is only printed, and the (total) run continues. -/
theorem c1_enrich_failure_sentinel (inp : Except String DetailPage)
    (h : enrichFailed inp = true) :
    fetch_certification_details inp =
      { full_description := "Error fetching description", cert_date := "N/A",
        certificate_id := "N/A", firmware_version := "N/A",
        hardware_version := "N/A", transport_interface := "N/A",
        specification_version := "N/A", images := [] } := by
  cases inp with
  | error e => rfl
  | ok pg =>
    unfold fetch_certification_details
    unfold enrichFailed at h
    dsimp only at h ⊢
    cases hc : enrichCore pg with
    | error e => rfl
    | ok d =>
      exfalso
      rw [hc] at h
      simp at h

/-- Witness for C1 at a concrete failing input: a detail page whose
certification-date string is malformed. -/
theorem c1_enrich_failure_sentinel_witness :
    enrichFailed (Except.ok pageC1bad) = true ∧
    fetch_certification_details (Except.ok pageC1bad) =
      { full_description := "Error fetching description", cert_date := "N/A",
        certificate_id := "N/A", firmware_version := "N/A",
        hardware_version := "N/A", transport_interface := "N/A",
        specification_version := "N/A", images := [] } :=
  ⟨rfl, c1_enrich_failure_sentinel (Except.ok pageC1bad) rfl⟩

/-- C4: once accumulation has started (`startedAfter false pre = true`)
and a block containing "View All Products" arrives, neither that block
nor any subsequent block contributes to the description: the result over
`pre ++ b :: suf` equals the result over `pre` for every suffix, so it
is independent of what follows the marker, and re-running the
accumulator over the (truncated) input yields the same description. -/
theorem c4_marker_truncates (pre : List String) (b : String) (suf : List String)
    (hstart : startedAfter false pre = true)
    (hmark : containsSub b "View All Products" = true) :
    accumulateDescription (pre ++ b :: suf) = accumulateDescription pre :=
  accumGo_marker hmark pre false "" suf hstart

/-- Witness for C4 at concrete blocks: accumulation started by a
"By "-block, a marker block, and trailing junk. -/
theorem c4_marker_truncates_witness :
    startedAfter false ["By Acme Corp", "A great hub."] = true ∧
    containsSub "More View All Products here" "View All Products" = true ∧
    accumulateDescription
        (["By Acme Corp", "A great hub."] ++
          "More View All Products here" :: ["junk", "more junk"]) =
      accumulateDescription ["By Acme Corp", "A great hub."] :=
  ⟨rfl, rfl,
    c4_marker_truncates ["By Acme Corp", "A great hub."]
      "More View All Products here" ["junk", "more junk"] rfl rfl⟩

/-- C5: a detail page whose `Certified Date` value is the string
`01/15/2024` is enriched with the normalized publication date
`Mon, 15 Jan 2024 00:00:00 GMT` (MM/DD/YYYY parsed, reformatted to the
fixed RFC-822-style string at midnight UTC). -/
theorem c5_cert_date_format (pg : DetailPage)
    (h : pg.certDate = some "01/15/2024") :
    (fetch_certification_details (Except.ok pg)).cert_date =
      "Mon, 15 Jan 2024 00:00:00 GMT" := by
  unfold fetch_certification_details enrichCore
  dsimp only
  rw [h]
  rfl

/-- Witness for C5 at a concrete detail page. -/
theorem c5_cert_date_format_witness :
    pageC5.certDate = some "01/15/2024" ∧
    (fetch_certification_details (Except.ok pageC5)).cert_date =
      "Mon, 15 Jan 2024 00:00:00 GMT" :=
  ⟨rfl, c5_cert_date_format pageC5 rfl⟩

/-- C10: if aggregation over all requested pages yields zero records,
`main` signals the no-data condition (it prints the diagnostic and
returns without a document, modelled as `none`) and the feed assembler
is never invoked; conversely a produced feed means the aggregation was
non-empty and the document is exactly the assembled one. -/
theorem c10_empty_no_feed (now : String) (pages : List PageResult) :
    (mainAggregate pages = [] → main now pages = none) ∧
    (∀ ch : RssChannel, main now pages = some ch →
      mainAggregate pages ≠ [] ∧ ch = build_rss now (mainAggregate pages)) := by
  constructor
  · intro h
    simp [main, h]
  · intro ch h
    unfold main at h
    dsimp only at h
    cases he : (mainAggregate pages).isEmpty with
    | true => rw [he] at h; simp at h
    | false =>
      rw [he] at h
      simp only [Bool.false_eq_true, if_false, Option.some.injEq] at h
      constructor
      · intro hnil
        rw [hnil] at he
        simp at he
      · exact h.symm

/-- Witness for C10 at a concrete run whose only page fails, leaving
zero records. -/
theorem c10_empty_no_feed_witness :
    mainAggregate pagesC10 = [] ∧
    main "Sun, 12 Oct 2025 00:00:00 GMT" pagesC10 = none :=
  ⟨rfl, (c10_empty_no_feed "Sun, 12 Oct 2025 00:00:00 GMT" pagesC10).1 rfl⟩

/-- C2 counterexample: with 3 pages each yielding 20 raw non-excluded
qualifying tiles, the run returns exactly 36 records yet performs 40
detail-enrichment calls — the tiles that became the 37th..40th
accumulated records were enriched and then truncated away, refuting
"tiles beyond the 36th accumulated record are never detail-enriched". -/
theorem c2_counterexample :
    (mainAggregate pagesC2three).length = 36 ∧
    enrichCount pagesC2three = 40 ∧
    ¬ enrichCount pagesC2three ≤ 36 := by
  refine ⟨rfl, rfl, ?_⟩
  intro hle
  have h40 : enrichCount pagesC2three = 40 := rfl
  omega

/-- C2 amended: aggregation never returns more than 36 records whatever
the pages; the 3-pages-of-20 example yields exactly 36; and the
short-circuit is at page granularity — once a processed prefix of pages
has reached the cap, appending further pages changes neither the
records nor the enrichment count (later pages are never fetched or
enriched) — while within the page on which the cap is crossed every
qualifying tile is still enriched (40 calls in the example). -/
theorem c2_cap_and_page_short_circuit :
    (∀ pages : List PageResult, (mainAggregate pages).length ≤ 36) ∧
    (mainAggregate pagesC2three).length = 36 ∧
    (∀ (pre post : List PageResult), (mainAggregate pre).length = 36 →
      mainLoop [] 0 (pre ++ post) = mainLoop [] 0 pre) ∧
    enrichCount pagesC2three = 40 := by
  refine ⟨?_, rfl, ?_, rfl⟩
  · intro pages
    exact mainLoop_length_le pages [] 0 (by simp)
  · intro pre post hcap
    exact mainLoop_append_of_cap pre [] 0 post (by simp) hcap

/-- Witness for the amended C2: after two pages of 20, the cap is
reached and a third page changes nothing. -/
theorem c2_cap_and_page_short_circuit_witness :
    (mainAggregate pagesC2two).length = 36 ∧
    mainLoop [] 0 (pagesC2two ++ [Except.ok pageC2]) = mainLoop [] 0 pagesC2two :=
  ⟨rfl, c2_cap_and_page_short_circuit.2.2.1 pagesC2two [Except.ok pageC2] rfl⟩

/-- C3 counterexample: a tile whose title contains "End Products" (and
which has a valid product link) is not returned by the listing parser
at all — the output for a page holding only that tile is empty. This
refutes "the listing parser still returns that tile (marked
excluded = true, not silently dropped)": the code has no exclusion flag
and silently drops the tile via `continue`. -/
theorem c3_counterexample :
    containsSub (tileTitle tileC3) "End Products" = true ∧
    parse_products [tileC3] = [] :=
  ⟨rfl, rfl⟩

/-- C3 amended: the listing parser drops tiles whose title contains
"End Products" before any detail enrichment — such a tile yields no
record — and consequently no emitted ProductRecord has a title
containing the excluded-category substring. -/
theorem c3_excluded_dropped :
    (∀ t : Tile, containsSub (tileTitle t) "End Products" = true →
      parseTile t = none) ∧
    (∀ (tiles : List Tile) (p : Product), p ∈ parse_products tiles →
      containsSub p.title "End Products" = false) := by
  constructor
  · intro t h
    simp [parseTile, h]
  · intro tiles p hp
    unfold parse_products at hp
    rw [List.mem_filterMap] at hp
    obtain ⟨t, _, ht⟩ := hp
    obtain ⟨hcs, hti, _⟩ := parseTile_some_inv ht
    rw [hti]
    exact hcs

/-- Witness for the amended C3 at a concrete excluded tile. -/
theorem c3_excluded_dropped_witness :
    containsSub (tileTitle tileC3) "End Products" = true ∧
    parseTile tileC3 = none :=
  ⟨rfl, c3_excluded_dropped.1 tileC3 rfl⟩

/-- C6 counterexample: a tile with no anchor link produces no record at
all — the parse of a page holding only that tile is empty — refuting
"the pipeline still produces a ProductRecord whose link field is the
sentinel". The `"N/A"` link branch in the source (line 154) is
unreachable, because appending is guarded by the url being truthy. -/
theorem c6_counterexample :
    tileC6.href = none ∧ parse_products [tileC6] = [] :=
  ⟨rfl, rfl⟩

/-- C6 amended: a tile with no anchor link is skipped entirely (no
record, no enrichment); every emitted ProductRecord comes from a tile
whose absolute URL contains "csa_product", so an emitted link is never
the "N/A" sentinel. -/
theorem c6_no_link_skipped :
    (∀ t : Tile, t.href = none → parseTile t = none) ∧
    (∀ (tiles : List Tile) (p : Product), p ∈ parse_products tiles →
      containsSub p.link "csa_product" = true ∧ p.link ≠ "N/A") := by
  constructor
  · intro t h
    unfold parseTile tileUrl
    rw [h]
    dsimp only
    split <;> rfl
  · intro tiles p hp
    unfold parse_products at hp
    rw [List.mem_filterMap] at hp
    obtain ⟨t, _, ht⟩ := hp
    obtain ⟨_, _, u, hu, hne, hcsa, hlink⟩ := parseTile_some_inv ht
    refine ⟨by rw [hlink]; exact hcsa, ?_⟩
    intro hna
    rw [hna] at hlink
    rw [← hlink] at hcsa
    exact absurd hcsa (by decide)

/-- Witness for the amended C6 at a concrete linkless tile. -/
theorem c6_no_link_skipped_witness :
    tileC6.href = none ∧ parseTile tileC6 = none :=
  ⟨rfl, c6_no_link_skipped.1 tileC6 rfl⟩

/-- C7 counterexample: for a product whose detail page had no
`Certificate ID` label (certificate id sentinel "N/A"), the assembled
item still contains a guid element — with text "N/A" — refuting
"the feed item contains a guid element only when a certificate id is
present". -/
theorem c7_counterexample :
    prodC7.certificate_id = "N/A" ∧
    filterTag "guid" (buildItem prodC7) =
      [{ tag := "guid", attrs := [], text := some "N/A" }] ∧
    countTag "guid" (buildItem prodC7) = 1 :=
  ⟨rfl, rfl, rfl⟩

/-- C7 amended: every assembled item carries exactly one guid element,
whose text is the record's certificate id — the sentinel "N/A" when the
certificate id was not found — never an absent element. -/
theorem c7_guid_always (prod : Product) :
    filterTag "guid" (buildItem prod) =
      [{ tag := "guid", attrs := [], text := some prod.certificate_id }] := by
  cases himg : optTruthy prod.image with
  | false =>
    simp only [buildItem, himg, Bool.false_eq_true, if_false, List.append_nil]
    rfl
  | true =>
    simp only [buildItem, himg, if_true]
    rfl

/-- C8 counterexample: a record with three images in play (the tile's
primary image plus a two-image detail gallery) yields an item with
exactly one media element — for the single image field only — not one
element per image; gallery images never reach the feed. -/
theorem c8_counterexample :
    pageC8.images = ["/img/g1.jpg", "/img/g2.jpg"] ∧
    prodC8.image = some "/img/main.jpg" ∧
    countTag mediaTag (buildItem prodC8) = 1 ∧
    countTag mediaTag (buildItem prodC8) ≠ 3 := by
  refine ⟨rfl, rfl, rfl, ?_⟩
  intro h3
  have h1 : countTag mediaTag (buildItem prodC8) = 1 := rfl
  omega

/-- C8 amended: each item carries at most one media element — exactly
one, with fixed MIME type image/jpeg, for the record's single image
field when it is truthy (the tile's primary image, or the first gallery
image substituted as fallback during parsing), and none otherwise. -/
theorem c8_single_media (prod : Product) :
    filterTag mediaTag (buildItem prod) =
      (if optTruthy prod.image then [mediaContentElem (prod.image.getD "")] else []) := by
  cases himg : optTruthy prod.image with
  | false =>
    simp only [buildItem, himg, Bool.false_eq_true, if_false, List.append_nil]
    rfl
  | true =>
    simp only [buildItem, himg, if_true]
    rfl

/-- C9 counterexample: the href "httpx/csa_product" starts with no URL
scheme (it has no colon at all), yet the emitted link is not prefixed
with the site origin — the code tests the literal "http", which this
href happens to start with — and the resulting ProductRecord link is
not an absolute URL. -/
theorem c9_counterexample :
    hasUrlScheme "httpx/csa_product" = false ∧
    tileC9.href = some "httpx/csa_product" ∧
    prodC9.link = "httpx/csa_product" ∧
    strStartsWith prodC9.link "https://csa-iot.org" = false ∧
    isAbsoluteUrl prodC9.link = false :=
  ⟨rfl, rfl, rfl, rfl, rfl⟩

/-- C9 amended: the origin prefix is applied exactly when the href is
truthy (non-empty) and does not start with the literal "http" (not:
with a URL scheme): such hrefs yield the origin-prefixed link, an empty
href is left as the unprefixed empty string, and every emitted
ProductRecord link starts with "http". -/
theorem c9_http_prefixing :
    (∀ (t : Tile) (u : String), t.href = some u → u ≠ "" →
      strStartsWith u "http" = false →
      tileUrl t = some ("https://csa-iot.org" ++ u)) ∧
    (∀ t : Tile, t.href = some "" → tileUrl t = some "") ∧
    (∀ (tiles : List Tile) (p : Product), p ∈ parse_products tiles →
      strStartsWith p.link "http" = true) := by
  refine ⟨?_, ?_, ?_⟩
  · intro t u h hne hs
    unfold tileUrl
    rw [h]
    dsimp only
    simp [hs, hne]
  · intro t h
    unfold tileUrl
    rw [h]
    rfl
  · intro tiles p hp
    unfold parse_products at hp
    rw [List.mem_filterMap] at hp
    obtain ⟨t, _, ht⟩ := hp
    obtain ⟨_, _, u, hu, hne, _, hlink⟩ := parseTile_some_inv ht
    rw [hlink]
    exact tileUrl_startsWith_http hu hne

/-- Witness for the amended C9 at a concrete relative href. -/
theorem c9_http_prefixing_witness :
    tileC9w.href = some "/csa_product/lock/" ∧
    strStartsWith "/csa_product/lock/" "http" = false ∧
    tileUrl tileC9w = some ("https://csa-iot.org" ++ "/csa_product/lock/") :=
  ⟨rfl, rfl,
    c9_http_prefixing.1 tileC9w "/csa_product/lock/" rfl (by decide) rfl⟩

end GenerateFeed
